import Mathlib

/-!
Shallow embedding of the Conversation & Mood Analytics Engine of
`app.py` (cultural navigator assistant): mood vocabulary, anonymous post
store, prompt construction for the LLM boundary, and the mood-calendar
view.  External effectful collaborators (the TextBlob sentiment scorer
and the OpenAI chat-completion call) are passed in as explicit function
arguments; the sqlite store is modelled as an explicit list of rows with
an autoincrement counter; exceptions are modelled with `Except`.
-/

deriving instance DecidableEq for Except

namespace Cucunet

/-- A chat message `{"role": ..., "content": ...}`. -/
structure Message where
  role : String
  content : String
deriving DecidableEq, Repr

/-- One entry of the `MOOD_COLORS` table: display color and numeric score. -/
structure MoodInfo where
  color : String
  score : Nat
deriving DecidableEq, Repr

/-- The fixed five-entry `MOOD_COLORS` dictionary from `app.py`. -/
def MOOD_COLORS : List (String × MoodInfo) :=
  [("非常开心 😊", ⟨"#FFD700", 100⟩),
   ("心情不错 🙂", ⟨"#98FB98", 75⟩),
   ("一般般 😐", ⟨"#87CEEB", 50⟩),
   ("有点低落 😔", ⟨"#DDA0DD", 25⟩),
   ("很难过 😢", ⟨"#CD5C5C", 0⟩)]

/-- Python dict lookup `MOOD_COLORS[m]`; `none` models a `KeyError`. -/
def moodLookup (m : String) : Option MoodInfo :=
  (MOOD_COLORS.find? (fun p => decide (p.1 = m))).map Prod.snd

/-- A calendar date (the `post_date` column / `st.date_input` value). -/
structure PDate where
  year : Nat
  month : Nat
  day : Nat
deriving DecidableEq, Repr

/-- One row of the `anonymous_posts` sqlite table. -/
structure Row where
  id : Nat
  content : String
  category : String
  mood : Option String
  mood_color : Option String
  post_date : Option PDate
  sentiment_score : Nat
  timestamp : Nat
deriving DecidableEq, Repr

/-- The `anonymous_posts` table: rows in insertion order plus the next
autoincrement id (sqlite starts at 1). -/
structure DB where
  rows : List Row
  nextId : Nat
deriving DecidableEq, Repr

/-- Embedding of `save_anonymous_post(content, category, mood, mood_color, post_date)`.
`analyze` stands for the external TextBlob scorer called on the content
(its result is bound to a local and not referenced afterwards, exactly as
in the source); `now` is the `CURRENT_TIMESTAMP` default of the insert.
A missing mood (Python-falsy: `None` or the empty string) stores score 50
and a NULL color; a mood label outside `MOOD_COLORS` raises `KeyError`,
modelled as `.error`.  The Python function falls off its end, so the
value returned to the caller is `none` (Python `None`). -/
def save_anonymous_post (analyze : String → String) (content category : String)
    (mood mood_color : Option String) (post_date : Option PDate) (now : Nat)
    (db : DB) : Except String (DB × Option Row) :=
  let _sentiment := analyze content
  match mood with
  | some m =>
    if m = "" then
      .ok (⟨db.rows ++ [⟨db.nextId, content, category, some m, none, post_date, 50, now⟩],
            db.nextId + 1⟩, none)
    else
      match moodLookup m with
      | some info =>
        .ok (⟨db.rows ++
              [⟨db.nextId, content, category, some m, some info.color, post_date,
                info.score, now⟩], db.nextId + 1⟩, none)
      | none => .error ("KeyError: " ++ m)
  | none =>
    .ok (⟨db.rows ++ [⟨db.nextId, content, category, none, none, post_date, 50, now⟩],
          db.nextId + 1⟩, none)

/-- The ordering of `ORDER BY timestamp DESC`: `a` before `b` when `a`'s
timestamp is at least `b`'s. -/
def tsDesc (a b : Row) : Prop := b.timestamp ≤ a.timestamp

instance : DecidableRel tsDesc := fun a b => Nat.decLe b.timestamp a.timestamp

instance : IsTotal Row tsDesc := ⟨fun a b => Nat.le_total b.timestamp a.timestamp⟩

instance : IsTrans Row tsDesc := ⟨fun _ _ _ h1 h2 => Nat.le_trans h2 h1⟩

/-- Embedding of `get_anonymous_posts()`, i.e. `SELECT * FROM anonymous_posts
ORDER BY timestamp DESC`, modelled as a stable sort of the stored rows by
descending timestamp. -/
def get_anonymous_posts (db : DB) : List Row :=
  db.rows.insertionSort tsDesc

/-- The system instruction template of the `cultural_advice` branch. -/
def sys_cultural : String :=
  "你是一位经验丰富的文化顾问，专门帮助国际学生适应新的文化环境。\n            你需要：\n            1. 提供具体、实用的建议\n            2. 解释文化差异背后的原因\n            3. 分享相关的文化习俗和礼仪\n            4. 给出实际的例子和情境\n            请基于用户的具体情况提供个性化的建议。"

/-- The system instruction template of the `emotion_support` branch, an
f-string parameterized by the textual rendering of the live polarity. -/
def sys_emotion (polarity : String) : String :=
  "你是一位富有同理心的心理支持顾问。\n            用户当前的情感状态显示情感极性为" ++
    polarity ++
    "。\n            请：\n            1. 表达理解和认同\n            2. 提供情感支持\n            3. 给出实用的建议\n            4. 鼓励积极的态度\n            注意使用温和、支持性的语言。"

/-- The system instruction template of the `anonymous_sharing` branch. -/
def sys_anonymous : String :=
  "你是一位理解和支持的倾听者。\n            对于匿名分享：\n            1. 表示理解和同理\n            2. 分享类似经历（如果适用）\n            3. 提供建设性的建议\n            4. 鼓励继续分享\n            请保持文化敏感性。"

/-- Python slice `l[-n:]` as used at `chat_history[-10:]` (for the
positive window sizes the app uses, the last `n` elements, all of them
when fewer exist). -/
def window (n : Nat) (l : List Message) : List Message :=
  l.drop (l.length - n)

/-- The `messages` list that `generate_response(prompt, query_type, context)`
builds and hands to `client.chat.completions.create`: the branch on
`query_type` appends the system template (for `cultural_advice` only
inside `if context:`, together with the context user message), then the
new user prompt is appended, then — `if chat_history:` — every message of
`chat_history[-10:]` in order.  `analyze` is the external sentiment
scorer (rendered polarity text), `chat_history` the session-state list
`st.session_state[f"{query_type}_messages"]`. -/
def build_messages (analyze : String → String) (prompt query_type : String)
    (context : Option String) (chat_history : List Message) : List Message :=
  let head : List Message :=
    if query_type = "cultural_advice" then
      match context with
      | some c =>
        if c = "" then []
        else [⟨"system", sys_cultural⟩, ⟨"user", "用户背景信息：" ++ c⟩]
      | none => []
    else if query_type = "emotion_support" then
      [⟨"system", sys_emotion (analyze prompt)⟩]
    else if query_type = "anonymous_sharing" then
      [⟨"system", sys_anonymous⟩]
    else []
  let withPrompt := head ++ [⟨"user", prompt⟩]
  if chat_history.isEmpty then withPrompt
  else withPrompt ++ (window 10 chat_history).map (fun m => ⟨m.role, m.content⟩)

/-- Embedding of `generate_response`: build the message list, call the LLM boundary
(`llm`, modelled as `Except`: `.error e` stands for a raised exception
whose `str` is `e`), and on any failure return the error-as-content
string produced by the `except` clause. -/
def generate_response (analyze : String → String)
    (llm : List Message → Except String String)
    (prompt query_type : String) (context : Option String)
    (chat_history : List Message) : String :=
  match llm (build_messages analyze prompt query_type context chat_history) with
  | .ok r => r
  | .error e => "发生错误：" ++ e

/-- Gregorian leap year, as in `pandas`/`datetime`. -/
def isLeap (y : Nat) : Bool :=
  (y % 4 == 0 && y % 100 != 0) || y % 400 == 0

/-- Number of days of month `m` of year `y` (`Period.days_in_month`). -/
def daysInMonth (y m : Nat) : Nat :=
  if m = 2 then (if isLeap y then 29 else 28)
  else if m = 4 ∨ m = 6 ∨ m = 9 ∨ m = 11 then 30
  else 31

/-- Ordinal day of the year of `y-m-d` (1-based). -/
def dayOfYear (y m d : Nat) : Nat :=
  (((List.range (m - 1)).map (fun i => daysInMonth y (i + 1))).sum) + d

/-- Proleptic-Gregorian day number of `y-m-d` (0001-01-01 ↦ 1). -/
def rataDie (y m d : Nat) : Nat :=
  365 * (y - 1) + (y - 1) / 4 - (y - 1) / 100 + (y - 1) / 400 + dayOfYear y m d

/-- ISO weekday of `y-m-d`: Monday = 1, ..., Sunday = 7 (0001-01-01 was a
Monday in the proleptic Gregorian calendar). -/
def isoWeekday (y m d : Nat) : Nat :=
  (rataDie y m d - 1) % 7 + 1

/-- Number of ISO weeks of year `y`: 53 when Jan 1 falls on a Thursday, or
on a Wednesday of a leap year; else 52. -/
def isoWeeksInYear (y : Nat) : Nat :=
  if isoWeekday y 1 1 = 4 ∨ (isLeap y ∧ isoWeekday y 1 1 = 3) then 53 else 52

/-- ISO-8601 week number of `y-m-d`, as returned by Python
`date.isocalendar()[1]`: the raw week index `(doy - wd + 10) / 7`,
redirected to the last week of the previous year when it is 0 and to
week 1 of the next year when it exceeds the year's week count. -/
def isoWeek (y m d : Nat) : Nat :=
  let doy := dayOfYear y m d
  let wd := isoWeekday y m d
  let raw := (doy + 10 - wd) / 7
  if raw = 0 then isoWeeksInYear (y - 1)
  else if isoWeeksInYear y < raw then 1
  else raw

/-- The day numbers `1, ..., days_in_month` of the month grid
(`pd.date_range` over the whole month). -/
def monthDays (y m : Nat) : List Nat :=
  (List.range (daysInMonth y m)).map (fun i => i + 1)

/-- The list `weeks = [d.isocalendar()[1] for d in date_range]`. -/
def monthWeeks (y m : Nat) : List Nat :=
  (monthDays y m).map (fun d => isoWeek y m d)

/-- The value `min_week = min(weeks)` (0 never occurs: every month is non-empty). -/
def min_week (y m : Nat) : Nat :=
  match monthWeeks y m with
  | [] => 0
  | w :: ws => ws.foldl Nat.min w

/-- Column of day `day` in the calendar grid:
`week = date.isocalendar()[1] - min_week`. -/
def weekColumn (y m day : Nat) : Int :=
  (isoWeek y m day : Int) - (min_week y m : Int)

/-- The month period `(year, month)` of the post date of one row, as computed
by `to_period` on the post_date column. -/
def toPeriodM (r : Row) : Option (Nat × Nat) :=
  r.post_date.map (fun d => (d.year, d.month))

/-- The rendered month `current_month`: the month period of the first row of
the (timestamp-descending) posts frame. -/
def current_month (posts : List Row) : Option (Nat × Nat) :=
  posts.head?.bind toPeriodM

/-- The frame `month_data`: the rows whose post month is `ym`. -/
def month_data (posts : List Row) (ym : Nat × Nat) : List Row :=
  posts.filter (fun r => decide (toPeriodM r = some ym))

/-- The frame `day_data`: the rows of `month_data` whose post date is exactly `d`. -/
def day_data (md : List Row) (d : PDate) : List Row :=
  md.filter (fun r => decide (r.post_date = some d))

/-- The color of the calendar cell of day `d`:
the mood_color of the first row of day_data when the day has data (row order is the
frame order, timestamp-descending), else the neutral `'#EAEAEA'`. -/
def cell_color (posts : List Row) (ym : Nat × Nat) (d : PDate) : Option String :=
  match day_data (month_data posts ym) d with
  | r :: _ => r.mood_color
  | [] => some "#EAEAEA"

/-! ### Shared helper lemmas -/

/-- The sorted read of the store is a permutation of the stored rows. -/
theorem get_anonymous_posts_perm (db : DB) :
    List.Perm (get_anonymous_posts db) db.rows :=
  List.perm_insertionSort tsDesc db.rows

/-- The sorted read of the store is timestamp-descending. -/
theorem get_anonymous_posts_sorted (db : DB) :
    (get_anonymous_posts db).Pairwise (fun a b => b.timestamp ≤ a.timestamp) :=
  List.sorted_insertionSort tsDesc db.rows

/-! ### C6: bounded history window -/

/-- C6: `window n` on a history of length `L` returns exactly `min n L`
messages, and they are the last `min n L` messages of the history in
their original order (the history is the returned window preceded by its
first `L - min n L` messages). -/
theorem window_takes_last_min (n : Nat) (l : List Message) :
    (window n l).length = min n l.length ∧
    l.take (l.length - min n l.length) ++ window n l = l := by
  constructor
  · simp only [window, List.length_drop]
    omega
  · have h : l.length - min n l.length = l.length - n := by omega
    rw [h]
    exact List.take_append_drop _ l

/-! ### C7: LLM boundary failure becomes an error-as-content string -/

/-- C7: whenever the LLM boundary raises (returns `.error e`),
`generate_response` returns the displayable string `发生错误：<e>` instead
of propagating the failure. -/
theorem generate_response_error_as_content (analyze : String → String)
    (llm : List Message → Except String String) (prompt query_type : String)
    (context : Option String) (chat_history : List Message) (e : String)
    (h : llm (build_messages analyze prompt query_type context chat_history) =
      .error e) :
    generate_response analyze llm prompt query_type context chat_history =
      "发生错误：" ++ e := by
  simp [generate_response, h]

/-- C7 witness: a concrete boundary failure is rendered as content. -/
theorem generate_response_error_as_content_witness :
    generate_response (fun _ => "0.0") (fun _ => .error "Connection aborted")
      "我很焦虑" "emotion_support" none [] = "发生错误：Connection aborted" :=
  generate_response_error_as_content (fun _ => "0.0")
    (fun _ => .error "Connection aborted") "我很焦虑" "emotion_support" none []
    "Connection aborted" rfl

/-! ### C1: position of the new user message in the composed list -/

/-- C1 counterexample: with a non-empty history the composed list does
not end with the new user message (topic `emotion_support`, history of
one assistant message): the windowed history is appended after the new
user message, so the last list element is the history message. -/
theorem composed_list_user_message_not_last :
    (build_messages (fun _ => "0.0") "你好" "emotion_support" none
        [⟨"assistant", "早上好"⟩]).getLast? ≠ some ⟨"user", "你好"⟩ := by
  decide

/-- C1 amended: the composed list is the (topic-dependent) header block
ending in the new user message, followed by the windowed prior history
oldest first; equivalently, it equals the empty-history composition with
the window appended after it, and the empty-history composition ends in
the new user message.  The new user message is therefore last exactly
when the prior history is empty. -/
theorem composed_list_history_after_user (analyze : String → String)
    (prompt query_type : String) (context : Option String)
    (chat_history : List Message) :
    build_messages analyze prompt query_type context chat_history =
      build_messages analyze prompt query_type context [] ++ window 10 chat_history ∧
    (build_messages analyze prompt query_type context []).getLast? =
      some ⟨"user", prompt⟩ := by
  constructor
  · show build_messages analyze prompt query_type context chat_history = _
    by_cases h : chat_history.isEmpty
    · rw [List.isEmpty_iff.mp h]
      simp [build_messages, window]
    · simp only [build_messages, h, if_false, if_true, List.isEmpty_nil, window,
        List.length_nil, Nat.zero_sub, List.drop_nil, List.append_nil, Bool.false_eq_true]
      rw [List.map_congr_left (fun m _ => rfl)]
      simp
  · simp only [build_messages, List.isEmpty_nil, if_true]
    exact List.getLast?_concat _

/-! ### C4: cultural-advice header depends on the context -/

/-- C4 counterexample: for topic `cultural_advice` with no context the
composed list carries no system message at all — it is just the user
message (the system template is only appended inside `if context:`). -/
theorem cultural_advice_no_context_no_system_message :
    build_messages (fun _ => "0.0") "如何使用图书馆" "cultural_advice" none [] =
      [⟨"user", "如何使用图书馆"⟩] ∧
    (Message.mk "user" "如何使用图书馆").role ≠ "system" := by
  decide

/-- C4 amended: for topic `cultural_advice`, when a non-empty context is
supplied the composed list begins with the system message carrying the
cultural-advice template followed by the context user message (and then
continues exactly as the no-context composition); when no context is
supplied the list begins with the plain user message, with no system
message in front. -/
theorem cultural_advice_header_iff_context (analyze : String → String)
    (prompt c : String) (chat_history : List Message) (hc : c ≠ "") :
    build_messages analyze prompt "cultural_advice" (some c) chat_history =
      ⟨"system", sys_cultural⟩ :: ⟨"user", "用户背景信息：" ++ c⟩ ::
        build_messages analyze prompt "cultural_advice" none chat_history ∧
    (build_messages analyze prompt "cultural_advice" none chat_history).head? =
      some ⟨"user", prompt⟩ := by
  constructor
  · cases chat_history with
    | nil => simp [build_messages, hc]
    | cons a t => simp [build_messages, hc]
  · cases chat_history with
    | nil => simp [build_messages]
    | cons a t => simp [build_messages]

/-- C4 amended witness: concrete composition with a non-empty context. -/
theorem cultural_advice_header_iff_context_witness :
    build_messages (fun _ => "0.0") "问题" "cultural_advice" (some "刚来美国") [] =
      ⟨"system", sys_cultural⟩ :: ⟨"user", "用户背景信息：" ++ "刚来美国"⟩ ::
        build_messages (fun _ => "0.0") "问题" "cultural_advice" none [] ∧
    (build_messages (fun _ => "0.0") "问题" "cultural_advice" none []).head? =
      some ⟨"user", "问题"⟩ :=
  cultural_advice_header_iff_context (fun _ => "0.0") "问题" "刚来美国" []
    (by decide)

/-- Branch lemma: saving with no mood stores score 50 and a NULL color. -/
theorem save_anonymous_post_none (analyze : String → String)
    (content category : String) (mood_color : Option String)
    (post_date : Option PDate) (now : Nat) (db : DB) :
    save_anonymous_post analyze content category none mood_color post_date now db =
      .ok (⟨db.rows ++ [⟨db.nextId, content, category, none, none, post_date, 50, now⟩],
            db.nextId + 1⟩, none) := rfl

/-- Branch lemma: a Python-falsy empty mood label behaves like no mood
(score 50, NULL color), though the label itself is stored verbatim. -/
theorem save_anonymous_post_empty (analyze : String → String)
    (content category : String) (mood_color : Option String)
    (post_date : Option PDate) (now : Nat) (db : DB) :
    save_anonymous_post analyze content category (some "") mood_color post_date now db =
      .ok (⟨db.rows ++
            [⟨db.nextId, content, category, some "", none, post_date, 50, now⟩],
            db.nextId + 1⟩, none) := rfl

/-- Branch lemma: saving with a vocabulary mood label stores the table's
color and score. -/
theorem save_anonymous_post_some (analyze : String → String)
    (content category m : String) (info : MoodInfo) (mood_color : Option String)
    (post_date : Option PDate) (now : Nat) (db : DB)
    (hm : m ≠ "") (hl : moodLookup m = some info) :
    save_anonymous_post analyze content category (some m) mood_color post_date now db =
      .ok (⟨db.rows ++
            [⟨db.nextId, content, category, some m, some info.color, post_date,
              info.score, now⟩], db.nextId + 1⟩, none) := by
  simp only [save_anonymous_post, if_neg hm, hl]

/-! ### C2: what the stored sentiment_score actually is -/

/-- C2 counterexample: two saves with the same content and the same
sentiment scorer but different mood-slider labels store different
`sentiment_score` values (100 vs 0), so the stored score is the
user-selected mood score, not a value computed from the content. -/
theorem stored_sentiment_score_follows_mood_slider :
    (save_anonymous_post (fun _ => "0.123") "想家了" "文化适应" (some "非常开心 😊")
        none none 7 ⟨[], 1⟩).map (fun r => r.1.rows.map Row.sentiment_score) =
      .ok [100] ∧
    (save_anonymous_post (fun _ => "0.123") "想家了" "文化适应" (some "很难过 😢")
        none none 7 ⟨[], 1⟩).map (fun r => r.1.rows.map Row.sentiment_score) =
      .ok [0] := by
  decide

/-- C2 amended: the stored `sentiment_score` is the mood-slider score —
`MOOD_COLORS[mood]["score"]` for a non-empty mood label and 50 when the
mood is Python-falsy — and the result of a save is independent of the
sentiment scorer: the TextBlob analysis of the content is computed and
then discarded. -/
theorem saved_sentiment_score_is_mood_score (analyze analyze2 : String → String)
    (content category : String) (mood mood_color : Option String)
    (post_date : Option PDate) (now : Nat) (db db2 : DB) (ret : Option Row)
    (h : save_anonymous_post analyze content category mood mood_color post_date now db =
      .ok (db2, ret)) :
    save_anonymous_post analyze2 content category mood mood_color post_date now db =
      .ok (db2, ret) ∧
    ∃ row, db2.rows = db.rows ++ [row] ∧
      (∀ m, mood = some m → m ≠ "" →
        ∃ info, moodLookup m = some info ∧ row.sentiment_score = info.score) ∧
      ((mood = none ∨ mood = some "") → row.sentiment_score = 50) := by
  refine ⟨h, ?_⟩
  cases mood with
  | none =>
    rw [save_anonymous_post_none] at h
    simp only [Except.ok.injEq, Prod.mk.injEq] at h
    obtain ⟨hdb, -⟩ := h
    subst hdb
    exact ⟨_, rfl, fun m hm => by simp at hm, fun _ => rfl⟩
  | some m =>
    by_cases hm : m = ""
    · subst hm
      rw [save_anonymous_post_empty] at h
      simp only [Except.ok.injEq, Prod.mk.injEq] at h
      obtain ⟨hdb, -⟩ := h
      subst hdb
      refine ⟨_, rfl, ?_, fun _ => rfl⟩
      intro m' hm' hne
      obtain rfl : "" = m' := by injection hm'
      exact absurd rfl hne
    · cases hl : moodLookup m with
      | none =>
        rw [save_anonymous_post] at h
        simp only [if_neg hm, hl] at h
        exact Except.noConfusion h
      | some info =>
        rw [save_anonymous_post_some analyze content category m info mood_color
          post_date now db hm hl] at h
        simp only [Except.ok.injEq, Prod.mk.injEq] at h
        obtain ⟨hdb, -⟩ := h
        subst hdb
        refine ⟨_, rfl, ?_, ?_⟩
        · intro m' hm' _
          obtain rfl : m = m' := by injection hm'
          exact ⟨info, hl, rfl⟩
        · intro hcase
          rcases hcase with h1 | h1
          · cases h1
          · obtain rfl : m = "" := by injection h1
            exact absurd rfl hm

/-- C2 amended witness: a concrete save with mood `一般般 😐` stores
score 50 regardless of the scorer. -/
theorem saved_sentiment_score_is_mood_score_witness :
    save_anonymous_post (fun _ => "0.9") "今天一般" "其他" (some "一般般 😐") none
      none 3 ⟨[], 1⟩ =
      .ok (⟨[⟨1, "今天一般", "其他", some "一般般 😐", some "#87CEEB", none, 50, 3⟩],
            2⟩, none) ∧
    ∃ row, (⟨[⟨1, "今天一般", "其他", some "一般般 😐", some "#87CEEB", none, 50, 3⟩],
            2⟩ : DB).rows = ([] : List Row) ++ [row] ∧
      (∀ m, (some "一般般 😐" : Option String) = some m → m ≠ "" →
        ∃ info, moodLookup m = some info ∧ row.sentiment_score = info.score) ∧
      ((some "一般般 😐" = none ∨ (some "一般般 😐" : Option String) = some "") →
        row.sentiment_score = 50) :=
  saved_sentiment_score_is_mood_score (fun _ => "0.1") (fun _ => "0.9") "今天一般"
    "其他" (some "一般般 😐") none none 3 ⟨[], 1⟩ _ _ (by decide)

/-! ### C10: the mood_color parameter is dead -/

/-- C10: the stored row never depends on the `mood_color` argument — the
save result is identical for any two values of it — and the stored
`mood_color` column is derived solely from the mood label through
`MOOD_COLORS` (NULL when the mood is absent or Python-falsy). -/
theorem save_ignores_mood_color_param (analyze : String → String)
    (content category : String) (mood mc1 mc2 : Option String)
    (post_date : Option PDate) (now : Nat) (db db2 : DB) (ret : Option Row)
    (h : save_anonymous_post analyze content category mood mc1 post_date now db =
      .ok (db2, ret)) :
    save_anonymous_post analyze content category mood mc2 post_date now db =
      .ok (db2, ret) ∧
    ∃ row, db2.rows = db.rows ++ [row] ∧
      (∀ m, mood = some m → m ≠ "" →
        ∃ info, moodLookup m = some info ∧ row.mood_color = some info.color) ∧
      ((mood = none ∨ mood = some "") → row.mood_color = none) := by
  refine ⟨h, ?_⟩
  cases mood with
  | none =>
    rw [save_anonymous_post_none] at h
    simp only [Except.ok.injEq, Prod.mk.injEq] at h
    obtain ⟨hdb, -⟩ := h
    subst hdb
    exact ⟨_, rfl, fun m hm => by simp at hm, fun _ => rfl⟩
  | some m =>
    by_cases hm : m = ""
    · subst hm
      rw [save_anonymous_post_empty] at h
      simp only [Except.ok.injEq, Prod.mk.injEq] at h
      obtain ⟨hdb, -⟩ := h
      subst hdb
      refine ⟨_, rfl, ?_, fun _ => rfl⟩
      intro m' hm' hne
      obtain rfl : "" = m' := by injection hm'
      exact absurd rfl hne
    · cases hl : moodLookup m with
      | none =>
        rw [save_anonymous_post] at h
        simp only [if_neg hm, hl] at h
        exact Except.noConfusion h
      | some info =>
        rw [save_anonymous_post_some analyze content category m info mc1
          post_date now db hm hl] at h
        simp only [Except.ok.injEq, Prod.mk.injEq] at h
        obtain ⟨hdb, -⟩ := h
        subst hdb
        refine ⟨_, rfl, ?_, ?_⟩
        · intro m' hm' _
          obtain rfl : m = m' := by injection hm'
          exact ⟨info, hl, rfl⟩
        · intro hcase
          rcases hcase with h1 | h1
          · cases h1
          · obtain rfl : m = "" := by injection h1
            exact absurd rfl hm

/-- C10 witness: passing a wrong color for mood `很难过 😢` still stores
the table color `#CD5C5C`. -/
theorem save_ignores_mood_color_param_witness :
    save_anonymous_post (fun _ => "0.0") "想家了" "文化适应" (some "很难过 😢")
      (some "#FFD700") none 9 ⟨[], 1⟩ =
      .ok (⟨[⟨1, "想家了", "文化适应", some "很难过 😢", some "#CD5C5C", none, 0, 9⟩],
            2⟩, none) ∧
    ∃ row, (⟨[⟨1, "想家了", "文化适应", some "很难过 😢", some "#CD5C5C", none, 0, 9⟩],
            2⟩ : DB).rows = ([] : List Row) ++ [row] ∧
      (∀ m, (some "很难过 😢" : Option String) = some m → m ≠ "" →
        ∃ info, moodLookup m = some info ∧ row.mood_color = some info.color) ∧
      ((some "很难过 😢" = none ∨ (some "很难过 😢" : Option String) = some "") →
        row.mood_color = none) :=
  save_ignores_mood_color_param (fun _ => "0.0") "想家了" "文化适应"
    (some "很难过 😢") (some "#123456") (some "#FFD700") none 9 ⟨[], 1⟩ _ _
    (by decide)

/-! ### C8: what save hands back to the caller -/

/-- C8 counterexample: a concrete valid save persists, but the value the
function hands back to its caller is `none` (Python `None`), not the
stored Post. -/
theorem save_returns_no_post :
    (save_anonymous_post (fun _ => "0.0") "想家了" "文化适应" (some "很难过 😢")
        (some "#CD5C5C") (some ⟨2024, 3, 1⟩) 5 ⟨[], 1⟩).map Prod.snd = .ok none ∧
    ∀ r : Row, (Except.ok (some r) : Except String (Option Row)) ≠ .ok none := by
  refine ⟨by decide, ?_⟩
  intro r h
  simp at h

/-- C8 amended: a successful save appends exactly one row, carrying the
generated autoincrement id and the given fields, but returns `none` to
the caller instead of the stored Post. -/
theorem save_persists_but_returns_none (analyze : String → String)
    (content category : String) (mood mood_color : Option String)
    (post_date : Option PDate) (now : Nat) (db db2 : DB) (ret : Option Row)
    (h : save_anonymous_post analyze content category mood mood_color post_date now db =
      .ok (db2, ret)) :
    ret = none ∧ db2.nextId = db.nextId + 1 ∧
    ∃ row, db2.rows = db.rows ++ [row] ∧ row.id = db.nextId ∧
      row.content = content ∧ row.category = category ∧
      row.post_date = post_date ∧ row.timestamp = now ∧ row.mood = mood := by
  cases mood with
  | none =>
    rw [save_anonymous_post_none] at h
    simp only [Except.ok.injEq, Prod.mk.injEq] at h
    obtain ⟨hdb, hret⟩ := h
    subst hdb
    exact ⟨hret.symm, rfl, _, rfl, rfl, rfl, rfl, rfl, rfl, rfl⟩
  | some m =>
    by_cases hm : m = ""
    · subst hm
      rw [save_anonymous_post_empty] at h
      simp only [Except.ok.injEq, Prod.mk.injEq] at h
      obtain ⟨hdb, hret⟩ := h
      subst hdb
      exact ⟨hret.symm, rfl, _, rfl, rfl, rfl, rfl, rfl, rfl, rfl⟩
    · cases hl : moodLookup m with
      | none =>
        rw [save_anonymous_post] at h
        simp only [if_neg hm, hl] at h
        exact Except.noConfusion h
      | some info =>
        rw [save_anonymous_post_some analyze content category m info mood_color
          post_date now db hm hl] at h
        simp only [Except.ok.injEq, Prod.mk.injEq] at h
        obtain ⟨hdb, hret⟩ := h
        subst hdb
        exact ⟨hret.symm, rfl, _, rfl, rfl, rfl, rfl, rfl, rfl, rfl⟩

/-- C8 amended witness: concrete persisted row with generated id 1 and a
`none` return value. -/
theorem save_persists_but_returns_none_witness :
    (none : Option Row) = none ∧ (⟨[⟨1, "想家了", "文化适应", some "很难过 😢",
        some "#CD5C5C", some ⟨2024, 3, 1⟩, 0, 5⟩], 2⟩ : DB).nextId = (⟨[], 1⟩ : DB).nextId + 1 ∧
    ∃ row, (⟨[⟨1, "想家了", "文化适应", some "很难过 😢", some "#CD5C5C",
        some ⟨2024, 3, 1⟩, 0, 5⟩], 2⟩ : DB).rows = (⟨[], 1⟩ : DB).rows ++ [row] ∧
      row.id = (⟨[], 1⟩ : DB).nextId ∧ row.content = "想家了" ∧
      row.category = "文化适应" ∧ row.post_date = some ⟨2024, 3, 1⟩ ∧
      row.timestamp = 5 ∧ row.mood = some "很难过 😢" :=
  save_persists_but_returns_none (fun _ => "0.0") "想家了" "文化适应"
    (some "很难过 😢") (some "#CD5C5C") (some ⟨2024, 3, 1⟩) 5 ⟨[], 1⟩ _ _
    (by decide)

/-! ### C3: save / listAll round trip -/

/-- C3: saving a post with non-empty content and a vocabulary mood into a
store that has no entry with that content and category makes `listAll`
(the timestamp-descending read) contain exactly one entry with that
content and category, and that entry carries the `MOOD_COLORS` color and
score of the mood. -/
theorem save_then_listAll_roundtrip (analyze : String → String)
    (content category m : String) (mood_color : Option String) (d : PDate)
    (now : Nat) (db : DB) (info : MoodInfo)
    (hcontent : content ≠ "") (hm : m ≠ "") (hl : moodLookup m = some info)
    (hfresh : ∀ r ∈ db.rows, ¬(r.content = content ∧ r.category = category)) :
    ∃ db2,
      save_anonymous_post analyze content category (some m) mood_color (some d)
          now db = .ok (db2, none) ∧
      ∃ row, (get_anonymous_posts db2).filter
          (fun r => decide (r.content = content ∧ r.category = category)) = [row] ∧
        row.mood_color = some info.color ∧ row.sentiment_score = info.score := by
  refine ⟨_, save_anonymous_post_some analyze content category m info mood_color
    (some d) now db hm hl, ?_⟩
  have hperm := (get_anonymous_posts_perm
      ⟨db.rows ++ [⟨db.nextId, content, category, some m, some info.color, some d,
        info.score, now⟩], db.nextId + 1⟩).filter
    (fun r => decide (r.content = content ∧ r.category = category))
  have hnil : db.rows.filter
      (fun r => decide (r.content = content ∧ r.category = category)) = [] := by
    rw [List.filter_eq_nil_iff]
    intro a ha
    simpa using hfresh a ha
  rw [show (⟨db.rows ++ [⟨db.nextId, content, category, some m, some info.color,
      some d, info.score, now⟩], db.nextId + 1⟩ : DB).rows =
      db.rows ++ [⟨db.nextId, content, category, some m, some info.color, some d,
      info.score, now⟩] from rfl, List.filter_append, hnil] at hperm
  have hone : (([⟨db.nextId, content, category, some m, some info.color, some d,
      info.score, now⟩] : List Row).filter
      (fun r => decide (r.content = content ∧ r.category = category))) =
      [⟨db.nextId, content, category, some m, some info.color, some d,
        info.score, now⟩] := by
    simp
  rw [List.nil_append, hone] at hperm
  exact ⟨_, List.perm_singleton.mp hperm, rfl, rfl⟩

/-- C3 witness: end-to-end scenario from the spec —
`save("想家了", "文化适应", "很难过 😢", 2024-03-01)` on an empty store, then
the read contains exactly one matching entry with color `#CD5C5C` and
score 0. -/
theorem save_then_listAll_roundtrip_witness :
    ∃ db2,
      save_anonymous_post (fun _ => "-0.2") "想家了" "文化适应" (some "很难过 😢")
          none (some ⟨2024, 3, 1⟩) 1 ⟨[], 1⟩ = .ok (db2, none) ∧
      ∃ row, (get_anonymous_posts db2).filter
          (fun r => decide (r.content = "想家了" ∧ r.category = "文化适应")) = [row] ∧
        row.mood_color = some "#CD5C5C" ∧ row.sentiment_score = 0 :=
  save_then_listAll_roundtrip (fun _ => "-0.2") "想家了" "文化适应" "很难过 😢"
    none ⟨2024, 3, 1⟩ 1 ⟨[], 1⟩ ⟨"#CD5C5C", 0⟩ (by decide) (by decide) (by decide)
    (by simp)

/-! ### C5: calendar cell is last-write-wins on a day -/

/-- C5: if `p2` is a stored post on calendar day `d`, every other post on
day `d` was created strictly earlier, and `d` lies in the rendered month
(the month of the most recent post), then the calendar cell of `d` shows
`p2`'s mood color — the most recently created post of the day wins. -/
theorem calendar_cell_last_write_wins (db : DB) (d : PDate) (p2 : Row)
    (hp2 : p2 ∈ db.rows) (hd2 : p2.post_date = some d)
    (hcm : current_month (get_anonymous_posts db) = some (d.year, d.month))
    (hmax : ∀ r ∈ db.rows, r.post_date = some d → r ≠ p2 →
      r.timestamp < p2.timestamp) :
    cell_color (get_anonymous_posts db) (d.year, d.month) d = p2.mood_color := by
  have hcomp : day_data (month_data (get_anonymous_posts db) (d.year, d.month)) d =
      (get_anonymous_posts db).filter (fun r => decide (r.post_date = some d)) := by
    unfold day_data month_data
    rw [List.filter_filter]
    have hfun : (fun r => decide (r.post_date = some d) &&
        decide (toPeriodM r = some (d.year, d.month))) =
        (fun r => decide (r.post_date = some d)) := by
      funext r
      by_cases h : r.post_date = some d
      · simp [h, toPeriodM]
      · simp [h]
    rw [hfun]
  have hp2f : p2 ∈ (get_anonymous_posts db).filter
      (fun r => decide (r.post_date = some d)) := by
    rw [List.mem_filter]
    exact ⟨(get_anonymous_posts_perm db).mem_iff.mpr hp2, by simp [hd2]⟩
  have hsorted := (get_anonymous_posts_sorted db).filter
    (fun r => decide (r.post_date = some d))
  unfold cell_color
  rw [hcomp]
  cases hfil : (get_anonymous_posts db).filter
      (fun r => decide (r.post_date = some d)) with
  | nil =>
    rw [hfil] at hp2f
    exact absurd hp2f (List.not_mem_nil p2)
  | cons r0 rest =>
    rw [hfil] at hp2f hsorted
    have hr0 : r0 ∈ db.rows ∧ r0.post_date = some d := by
      have hmem := List.mem_filter.mp
        (hfil ▸ (List.mem_cons_self r0 rest :
          r0 ∈ r0 :: rest))
      exact ⟨(get_anonymous_posts_perm db).mem_iff.mp hmem.1, by simpa using hmem.2⟩
    rcases List.mem_cons.mp hp2f with rfl | hp2rest
    · rfl
    · have hle : p2.timestamp ≤ r0.timestamp :=
        List.rel_of_pairwise_cons hsorted hp2rest
      by_cases he : r0 = p2
      · rw [he]
      · have := hmax r0 hr0.1 hr0.2 he
        omega

/-- C5 witness: two posts on 2025-07-10, created at timestamps 1 and 2;
the cell shows the color of the later one (`#FFD700`). -/
theorem calendar_cell_last_write_wins_witness :
    cell_color (get_anonymous_posts ⟨[
        ⟨1, "早的", "其他", some "一般般 😐", some "#87CEEB", some ⟨2025, 7, 10⟩, 50, 1⟩,
        ⟨2, "晚的", "其他", some "非常开心 😊", some "#FFD700", some ⟨2025, 7, 10⟩, 100, 2⟩],
        3⟩) (2025, 7) ⟨2025, 7, 10⟩ = some "#FFD700" :=
  calendar_cell_last_write_wins
    ⟨[⟨1, "早的", "其他", some "一般般 😐", some "#87CEEB", some ⟨2025, 7, 10⟩, 50, 1⟩,
      ⟨2, "晚的", "其他", some "非常开心 😊", some "#FFD700", some ⟨2025, 7, 10⟩, 100, 2⟩],
      3⟩ ⟨2025, 7, 10⟩
    ⟨2, "晚的", "其他", some "非常开心 😊", some "#FFD700", some ⟨2025, 7, 10⟩, 100, 2⟩
    (by decide) (by decide) (by decide) (by decide)

/-! ### C9: calendar column normalization -/

/-- C9 failing input: a store whose most recent post is dated December
2025.  ISO week numbers wrap at the year end (Dec 29–31, 2025 belong to
ISO week 1 of 2026), so `min(weeks)` is 1 and the code places day 1 —
which lies in the first (earliest) week present, ISO week 49 — in column
48, and the last days of the month in column 0, while the claim (and the
chart's own six `第N周` axis labels on columns 0–5) require the first
week present to map to column 0. -/
theorem calendar_columns_break_at_iso_week_wrap :
    current_month (get_anonymous_posts ⟨[
        ⟨1, "第一周的帖子", "其他", none, none, some ⟨2025, 12, 1⟩, 50, 1⟩,
        ⟨2, "年末的帖子", "其他", none, none, some ⟨2025, 12, 29⟩, 50, 2⟩], 3⟩) =
      some (2025, 12) ∧
    isoWeek 2025 12 1 = 49 ∧ isoWeek 2025 12 29 = 1 ∧ min_week 2025 12 = 1 ∧
    weekColumn 2025 12 1 = 48 ∧ weekColumn 2025 12 29 = 0 ∧ (48 : Int) ≠ 0 := by
  decide

end Cucunet
